import Mathlib

/-!
Shallow embedding of the asynchronous batching log exporter
(`exporter/asyncexporter/exporter.go` of trpc-system/go-opentelemetry),
together with theorems settling the specification claims about it.

Conventions of the embedding:
* durations (`time.Duration`, int64 nanoseconds) are `Int` where a sign can
  occur in the source and `Nat` where the source value is non-negative;
* a Go `error` value is a member of `GoErr`; `nil` is `Option.none`;
* channels are modelled explicitly: a closable buffered channel is `Chan`,
  the never-closed `disconnectedCh` is `SignalChan`, and the only-ever-closed
  `stopCh` is a `Bool` flag;
* a fallible or panicking operation returns an outcome type with an explicit
  `panicked` constructor carrying the Go runtime error message;
* nondeterministic scheduling choices (which ready `select` branch fires,
  whether a signal arrives before a deadline, the RPC outcome, the random
  jitter draw) are passed in as explicit oracle inputs.
-/

namespace AsyncExporter

/-- gRPC status codes, from `google.golang.org/grpc/codes`. -/
inductive Code
  | ok | canceled | unknown | invalidArgument | deadlineExceeded | notFound
  | alreadyExists | permissionDenied | resourceExhausted | failedPrecondition
  | aborted | outOfRange | unimplemented | internal | unavailable | dataLoss
  | unauthenticated
deriving DecidableEq

/-- A detail message attached to a gRPC status: either a
`google.rpc.RetryInfo` carrying a retry delay (in nanoseconds), or any
other detail type. -/
inductive Detail
  | retryInfo (delayNanos : Nat)
  | other
deriving DecidableEq

/-- A gRPC `*status.Status`: a code plus its detail messages. The Go
`retryable` receives an `error` and applies `status.Convert`; the embedding
takes the converted status directly (a `nil` error converts to code `ok`
with no details). -/
structure GrpcStatus where
  code : Code
  details : List Detail
deriving DecidableEq

/-- The `for _, detail := range s.Details()` loop of `throttleDelay`:
the first `RetryInfo` detail wins, the loop falls through to `0`. -/
def throttleDelayAux : List Detail → Nat
  | [] => 0
  | .retryInfo d :: _ => d
  | .other :: rest => throttleDelayAux rest

/-- `throttleDelay` of exporter.go: the duration to wait if an explicit
throttle time is included in the response status. -/
def throttleDelay (s : GrpcStatus) : Nat :=
  throttleDelayAux s.details

/-- `retryable` of exporter.go: whether the status identifies a request
that can be retried, and the wait duration taken from an explicit
throttle hint. -/
def retryable (s : GrpcStatus) : Bool × Nat :=
  match s.code with
  | .canceled | .deadlineExceeded | .resourceExhausted | .aborted
  | .outOfRange | .unavailable | .dataLoss => (true, throttleDelay s)
  | _ => (false, 0)

/-- The seven status codes the claim (and the spec) lists as retryable. -/
def retryableCodes : List Code :=
  [.canceled, .deadlineExceeded, .resourceExhausted, .aborted,
   .outOfRange, .unavailable, .dataLoss]

/-- Spec-side reading of a detail: the retry delay it carries, if it is a
`RetryInfo`. -/
def Detail.retryDelay : Detail → Option Nat
  | .retryInfo d => some d
  | .other => none

/-- C3: `retryable` returns true exactly on the seven listed codes, and the
returned wait duration is the first attached `RetryInfo` delay when one is
present and `0` otherwise (in particular `0` for every terminal code). -/
theorem retryable_classification (s : GrpcStatus) :
    ((retryable s).1 = true ↔ s.code ∈ retryableCodes) ∧
    (retryable s).2 =
      (if s.code ∈ retryableCodes
       then ((s.details.findSome? Detail.retryDelay).getD 0) else 0) := by
  have hdelay : ∀ ds : List Detail,
      throttleDelayAux ds = ((ds.findSome? Detail.retryDelay).getD 0) := by
    intro ds
    induction ds with
    | nil => rfl
    | cons d rest ih =>
      cases d <;> simp [throttleDelayAux, Detail.retryDelay, ih]
  obtain ⟨c, ds⟩ := s
  cases c <;>
    simp [retryable, retryableCodes, throttleDelay, hdelay]

/-- Witness for `retryable_classification`: an `Unavailable` status whose
second detail is a `RetryInfo` of 5 nanoseconds is retryable with wait 5. -/
theorem retryable_classification_witness :
    (retryable ⟨.unavailable, [.other, .retryInfo 5]⟩).1 = true ∧
    (retryable ⟨.unavailable, [.other, .retryInfo 5]⟩).2 = 5 := by
  obtain ⟨h1, h2⟩ := retryable_classification ⟨.unavailable, [.other, .retryInfo 5]⟩
  exact ⟨h1.mpr (by decide), by rw [h2]; decide⟩

/-- A Go error value, as far as the exporter distinguishes them. The named
constructors are the sentinel errors of exporter.go; `grpc` wraps a status
returned by the collector; `dial` stands for an arbitrary dial failure. -/
inductive GoErr
  | alreadyStarted
  | notStarted
  | disconnected
  | stopped
  | contextCanceled
  | deadlineExceeded
  | canceled
  | dial (msg : String)
  | grpc (s : GrpcStatus)
deriving DecidableEq

/-- An opaque telemetry record (`*logsproto.ResourceLogs`); the exporter
never inspects record contents, so a record is just an identifier. -/
abbrev LogRecord := Nat

/-- A closable buffered Go channel: capacity, current buffer contents and
whether `close` has been called. Used for `logsBatchCh`. -/
structure Chan (α : Type) where
  capacity : Nat
  buffer : List α
  closed : Bool
deriving DecidableEq

/-- Outcome of a plain (blocking) channel send `ch <- v`. -/
inductive SendResult (α : Type)
  | ok (ch : Chan α)
  /-- the buffer is full: the caller suspends until a receiver frees space -/
  | blocked
  | panicked (msg : String)
deriving DecidableEq

/-- Go semantics of `ch <- v` on a buffered channel: panic if the channel
is closed, enqueue if the buffer has room, otherwise block the sender. -/
def Chan.send {α : Type} (ch : Chan α) (v : α) : SendResult α :=
  if ch.closed then .panicked "send on closed channel"
  else if ch.buffer.length < ch.capacity then
    .ok { ch with buffer := ch.buffer ++ [v] }
  else .blocked

/-- `disconnectedCh : chan bool`. No code path ever closes this channel, so
the embedding carries no closed flag for it. Before `Start` the field is a
nil channel, modelled as capacity 0 (a non-blocking send on it always takes
the `default` branch, like on a full channel). -/
structure SignalChan where
  capacity : Nat
  buffer : List Bool
deriving DecidableEq

/-- Non-blocking send `select \x7b case ch <- v: default: \x7d` on a
never-closed channel: enqueue and report true if there is room, otherwise
leave the channel unchanged and report false. -/
def SignalChan.trySend (ch : SignalChan) (v : Bool) : SignalChan × Bool :=
  if ch.buffer.length < ch.capacity then
    ({ ch with buffer := ch.buffer ++ [v] }, true)
  else (ch, false)

/-- The configuration fields the claims depend on. `reconnectionPeriod` is
a `time.Duration` (signed nanoseconds, 0 when unset); the remaining fields
(address, headers, credentials, compressor, retry policy) do not affect
any claim and are omitted. -/
structure Config where
  concurrency : Nat
  reconnectionPeriod : Int
deriving DecidableEq

/-- The `Exporter` struct, restricted to the state the claims touch.
`lastConnectErr` is the atomically stored `lastConnectErrPtr` (`none` means
connected); `stopChClosed` models `stopCh`, which is only ever closed;
`logsBatchCh` is `none` while the field is still a nil channel;
`poolInitialized` records whether `Start` has installed the batch pool's
`New` function. -/
structure Exporter where
  started : Bool
  startOnceDone : Bool
  lastConnectErr : Option GoErr
  stopChClosed : Bool
  disconnectedCh : SignalChan
  logsBatchCh : Option (Chan (List LogRecord))
  poolInitialized : Bool
  grpcConnPresent : Bool
  c : Config
deriving DecidableEq

/-- `NewUnstartedExporter`: a fresh exporter whose channels are still nil
and whose batch pool has no `New` function. -/
def NewUnstartedExporter (cfg : Config) : Exporter where
  started := false
  startOnceDone := false
  lastConnectErr := none
  stopChClosed := false
  disconnectedCh := ⟨0, []⟩
  logsBatchCh := none
  poolInitialized := false
  grpcConnPresent := false
  c := cfg

/-- `connected`: the exporter believes the connection usable iff the last
recorded connect error is nil (a never-attempted connection also reads as
connected). -/
def Exporter.connected (e : Exporter) : Bool :=
  e.lastConnectErr.isNone

/-- `saveLastConnectError`: atomically store the error (or nil). -/
def saveLastConnectError (e : Exporter) (err : Option GoErr) : Exporter :=
  { e with lastConnectErr := err }

/-- `setStateConnected`: record a nil connect error. -/
def setStateConnected (e : Exporter) : Exporter :=
  saveLastConnectError e none

/-- `setStateDisconnected`: record the connect error, then signal
`disconnectedCh` with a non-blocking send (a pending signal makes the new
one be dropped silently). -/
def setStateDisconnected (e : Exporter) (err : GoErr) : Exporter :=
  let e' := saveLastConnectError e (some err)
  { e' with disconnectedCh := (e'.disconnectedCh.trySend true).1 }

/-- The Go runtime message of a send on a closed channel. -/
def sendOnClosedMsg : String := "send on closed channel"

/-- The Go runtime message of a nil pointer dereference. -/
def nilDerefMsg : String := "runtime error: invalid memory address or nil pointer dereference"

/-- The deferred `recover` block of `ExportLogs`: a recovered runtime error
is swallowed (the call then returns its zero value, a nil error) only when
its message is exactly this string; every other panic is re-raised by
`panic(x)`. -/
def exportLogsRecoverSwallows (msg : String) : Bool :=
  msg = "send on closed channel logsBatchCh"

/-- Outcome of a call to `ExportLogs`. -/
inductive ExportOutcome
  | ret (e : Exporter) (err : Option GoErr)
  /-- the call suspended on the channel send (full or nil channel) -/
  | blocked
  | panicked (msg : String)
deriving DecidableEq

/-- `ExportLogs`: acquire a batch slice from the pool (`getBatchSlice`),
append the records, and send the batch on `logsBatchCh` with a plain
blocking send, under the deferred recover described at
`exportLogsRecoverSwallows`. On a never-started exporter the pool's `New`
function is nil, `Get` returns a nil interface, the comma-ok assertion to
`*[]*logsproto.ResourceLogs` yields a nil pointer, and `(*batch)[:0]`
dereferences it. The batch sent is the pooled zero-length slice with `logs`
appended, i.e. its contents are exactly `logs`. -/
def ExportLogs (e : Exporter) (logs : List LogRecord) : ExportOutcome :=
  if !e.poolInitialized then
    if exportLogsRecoverSwallows nilDerefMsg then .ret e none
    else .panicked nilDerefMsg
  else
    match e.logsBatchCh with
    | none => .blocked
    | some ch =>
      match ch.send logs with
      | .ok ch' => .ret { e with logsBatchCh := some ch' } none
      | .blocked => .blocked
      | .panicked msg =>
        if exportLogsRecoverSwallows msg then .ret e none
        else .panicked msg

/-- `defaultConnReattemptPeriod = 10 * time.Second`, in nanoseconds. -/
def defaultConnReattemptPeriod : Nat := 10 * 1000000000

/-- `Start`: the body of the `startOnce.Do` closure runs only on the first
call; it marks the exporter started, allocates `disconnectedCh` with
capacity 1, fresh `stopCh` and `backgroundConnectionDoneCh`, `logsBatchCh`
with capacity `2*concurrency`, installs the batch pool's `New` function,
makes one optimistic connect attempt (recording connected or disconnected
accordingly), launches the background reconnector and the worker pool, and
forces the returned error to nil. On every later call the closure does not
run and the initial value `errAlreadyStarted` is returned. `dialErr` is
the oracle for the optimistic `connect` attempt (`none` = success). -/
def Start (e : Exporter) (dialErr : Option GoErr) : Exporter × Option GoErr :=
  if e.startOnceDone then (e, some .alreadyStarted)
  else
    let e1 : Exporter :=
      { e with
        started := true
        startOnceDone := true
        disconnectedCh := ⟨1, []⟩
        stopChClosed := false
        logsBatchCh := some ⟨2 * e.c.concurrency, [], false⟩
        poolInitialized := true }
    let e2 :=
      match dialErr with
      | none => setStateConnected { e1 with grpcConnPresent := true }
      | some err => setStateDisconnected e1 err
    (e2, none)

/-- Scheduling oracle for one `Shutdown` call: the result of closing the
gRPC connection, and whether the reconnector's confirmation on
`backgroundConnectionDoneCh` arrives before the caller's context is done.
`ctxErr` is what `ctx.Err()` returns once the context is done
(`deadlineExceeded` for an elapsed deadline, `canceled` for cancellation). -/
structure ShutdownEnv where
  connCloseErr : Option GoErr
  doneBeforeDeadline : Bool
  ctxErr : GoErr
deriving DecidableEq

/-- Outcome of a call to `Shutdown`. -/
inductive ShutdownOutcome
  | ret (e : Exporter) (err : Option GoErr)
  | panicked (msg : String)
deriving DecidableEq

/-- `Shutdown`: a no-op returning nil when not started; otherwise close
`logsBatchCh` (so workers drain and exit; `e.wait.Wait()` blocks until they
have), close the gRPC connection if present, clear `started`, close
`stopCh`, then wait for the reconnector's confirmation, returning
`ctx.Err()` instead if the context is done first. On a started exporter
`logsBatchCh` is never nil; the nil case would panic closing a nil
channel. -/
def Shutdown (e : Exporter) (env : ShutdownEnv) : ShutdownOutcome :=
  if !e.started then .ret e none
  else
    match e.logsBatchCh with
    | none => .panicked "close of nil channel"
    | some ch =>
      let err := if e.grpcConnPresent then env.connCloseErr else none
      let e' : Exporter :=
        { e with
          logsBatchCh := some { ch with closed := true }
          started := false
          stopChClosed := true }
      if env.doneBeforeDeadline then .ret e' err
      else .ret e' (some env.ctxErr)

/-- Scheduling oracle for one delivery attempt (`exportLogsInternal`): the
snapshots of `stopCh` and of the per-attempt context at the guarding
`select`, and the outcome of the wrapped RPC (`requestFunc` around
`logExporter.Export`; an OK status code is mapped to nil by the closure).
When several `select` branches are ready Go picks one at random; the
embedding orders them stop, context, default, and no claim depends on the
choice among simultaneously ready branches. -/
structure DeliveryEnv where
  stopClosed : Bool
  ctxDone : Bool
  rpcErr : Option GoErr
deriving DecidableEq

/-- Result of `exportLogsInternal`, with explicit effect bookkeeping:
whether the health state (`connected`) was read, and whether the RPC path
was entered. -/
structure InternalResult where
  err : Option GoErr
  consultedHealth : Bool
  rpcAttempted : Bool
  e : Exporter
deriving DecidableEq

/-- `exportLogsInternal`: return nil at once on an empty batch; fail with
`errDisconnected` when the health state reads disconnected; fail with
`errStopped` / `errContextCanceled` when the guarding `select` sees the
stop channel closed / the context done; otherwise run the request function
(a single attempt with retry disabled, the default), and on error record
the disconnection and return it. The goroutine that cancels the attempt
context when `stopCh` fires is absorbed into the `ctxDone` oracle. -/
def exportLogsInternal (e : Exporter) (logs : List LogRecord)
    (env : DeliveryEnv) : InternalResult :=
  if logs.length = 0 then ⟨none, false, false, e⟩
  else if !e.connected then ⟨some .disconnected, true, false, e⟩
  else if env.stopClosed then ⟨some .stopped, true, false, e⟩
  else if env.ctxDone then ⟨some .contextCanceled, true, false, e⟩
  else
    match env.rpcErr with
    | none => ⟨none, true, true, e⟩
    | some err => ⟨some err, true, true, setStateDisconnected e err⟩

/-- One step of a worker's `for batch := range e.logsBatchCh` loop. -/
inductive WorkerStep
  /-- the channel is closed and drained: the range loop ends, the worker exits -/
  | exited
  /-- nothing to receive yet: the worker suspends on the channel -/
  | waiting
  /-- a batch was processed: the metrics label emitted with the batch size,
  whether the batch was returned to the pool, and the post state -/
  | processed (label : String) (size : Nat) (putBack : Bool) (e : Exporter)
deriving DecidableEq

/-- One iteration of `exportBatches`: receive a batch (FIFO), deliver it via
`exportLogsInternal`, emit the failure or success counter tagged with the
batch size, and return the batch slice to the pool in either case. -/
def exportBatchesStep (e : Exporter) (env : DeliveryEnv) : WorkerStep :=
  match e.logsBatchCh with
  | none => .waiting
  | some ch =>
    match ch.buffer with
    | [] => if ch.closed then .exited else .waiting
    | batch :: rest =>
      let e1 := { e with logsBatchCh := some { ch with buffer := rest } }
      let r := exportLogsInternal e1 batch env
      .processed (if r.err.isSome then "async_failed" else "async_success")
        batch.length true r.e

/-- `connReattemptPeriod` as computed at the top of
`indefiniteBackgroundConnection`: the configured reconnection period, or
the 10-second default when it is unset or non-positive. -/
def connReattemptPeriod (cfgPeriod : Int) : Nat :=
  if cfgPeriod ≤ 0 then defaultConnReattemptPeriod else cfgPeriod.toNat

/-- `maxJitterNanos := int64(0.7 * float64(connReattemptPeriod))`. Floating
point is outside the shallow embedding; the conversion is modelled as
⌊7p/10⌋, which is exactly what the float expression yields at the default
period (0.7 × 10¹⁰ rounds to the representable 7 × 10⁹). -/
def maxJitterNanos (p : Nat) : Nat := 7 * p / 10

/-- Scheduling oracle for one iteration of the reconnector loop:
whether the entry `select` took the stop branch, the value returned by
`rng.Int63n(maxJitterNanos)` (uniform on [0, maxJitterNanos) by the rand
library's contract), and whether the sleep `select` saw `stopCh` fire
before the `time.After` timer. -/
structure ReconnectInput where
  selectStop : Bool
  jitterDraw : Nat
  stopDuringSleep : Bool
deriving DecidableEq

/-- Outcome of one iteration of the reconnector loop. -/
inductive ReconnectStep
  /-- the entry select saw the stop channel closed: the loop returns -/
  | exited
  /-- no disconnect signal pending: the loop suspends on `disconnectedCh` -/
  | waiting
  /-- the stop signal fired during the jittered sleep: the sleep is
  abandoned and the loop returns -/
  | exitedDuringSleep (e : Exporter)
  /-- the full sleep of the given length (nanoseconds) completed and the
  loop moves to its next iteration -/
  | slept (nanos : Nat) (e : Exporter)
deriving DecidableEq

/-- One iteration of the `for` loop of `indefiniteBackgroundConnection`:
return if stopped; otherwise consume one disconnect signal, redial
(`connect`, outcome given by the `dialErr` oracle), mark the health state
connected or disconnected accordingly, then sleep
`connReattemptPeriod + jitter` unless the stop signal fires first. -/
def reconnectIteration (e : Exporter) (dialErr : Option GoErr)
    (inp : ReconnectInput) : ReconnectStep :=
  if inp.selectStop then .exited
  else
    match e.disconnectedCh.buffer with
    | [] => .waiting
    | _ :: rest =>
      let e1 := { e with disconnectedCh := { e.disconnectedCh with buffer := rest } }
      let e2 :=
        match dialErr with
        | none => setStateConnected { e1 with grpcConnPresent := true }
        | some err => setStateDisconnected e1 err
      let p := connReattemptPeriod e.c.reconnectionPeriod
      if inp.stopDuringSleep then .exitedDuringSleep e2
      else .slept (p + inp.jitterDraw) e2

/-- The sample configuration used by the concrete evaluations below: one
worker (so an intake queue of capacity 2), reconnection period unset. -/
def sampleConfig : Config := ⟨1, 0⟩

/-- A running exporter: the state right after a successful first `Start`
under `sampleConfig` (see `runningE_reachable`). -/
def runningE : Exporter :=
  { started := true, startOnceDone := true, lastConnectErr := none,
    stopChClosed := false, disconnectedCh := ⟨1, []⟩,
    logsBatchCh := some ⟨2, [], false⟩, poolInitialized := true,
    grpcConnPresent := true, c := sampleConfig }

/-- `runningE` is exactly what the first `Start` with a successful
optimistic connect produces. -/
theorem runningE_reachable :
    runningE = (Start (NewUnstartedExporter sampleConfig) none).1 := rfl

/-- `runningE` with its intake queue at full capacity. -/
def fullE : Exporter :=
  { runningE with logsBatchCh := some ⟨2, [[1], [2]], false⟩ }

/-- `runningE` after `Shutdown`: queue and stop channel closed, no longer
started. -/
def stoppedE : Exporter :=
  { runningE with
      started := false, stopChClosed := true,
      logsBatchCh := some ⟨2, [], true⟩ }

/-- C1: evaluation at the failing input. Shutting down the running
exporter leaves `logsBatchCh` closed; a subsequent `ExportLogs` then
panics with the runtime message "send on closed channel", because the
deferred recover guard compares the message against the different string
"send on closed channel logsBatchCh" and so re-raises the panic; no
`stopped` error is returned, contrary to the claim (and spec I3). -/
theorem exportLogs_after_shutdown_panics :
    Shutdown runningE ⟨none, true, .deadlineExceeded⟩ = .ret stoppedE none ∧
    ExportLogs stoppedE [0] = .panicked sendOnClosedMsg ∧
    exportLogsRecoverSwallows sendOnClosedMsg = false :=
  ⟨rfl, rfl, by decide⟩

/-- C2 counterexample: starting from `runningE` (concurrency 1, intake
queue capacity 2), two submissions enqueue and return nil, and a third —
with the queue at full capacity — blocks on the channel send instead of
returning a dropped outcome, refuting the claim that `ExportLogs` never
blocks the caller when the queue is full. -/
theorem exportLogs_full_queue_blocks_concrete :
    ExportLogs runningE [1] =
      .ret { runningE with logsBatchCh := some ⟨2, [[1]], false⟩ } none ∧
    ExportLogs { runningE with logsBatchCh := some ⟨2, [[1]], false⟩ } [2] =
      .ret fullE none ∧
    ExportLogs fullE [3] = .blocked :=
  ⟨rfl, rfl, rfl⟩

/-- C2 as amended: while the exporter is running and the intake queue is
open but already at full capacity, `ExportLogs` suspends on the plain
channel send until a worker frees space; the batch is not dropped and no
full-queue outcome is returned to the caller. -/
theorem exportLogs_full_queue_blocks (e : Exporter)
    (ch : Chan (List LogRecord)) (logs : List LogRecord)
    (hpool : e.poolInitialized = true)
    (hch : e.logsBatchCh = some ch)
    (hopen : ch.closed = false)
    (hfull : ch.capacity ≤ ch.buffer.length) :
    ExportLogs e logs = .blocked := by
  simp [ExportLogs, hpool, hch, Chan.send, hopen, Nat.not_lt.mpr hfull]

/-- Witness for `exportLogs_full_queue_blocks` at the concrete full-queue
state `fullE`. -/
theorem exportLogs_full_queue_blocks_witness :
    ExportLogs fullE [9] = .blocked :=
  exportLogs_full_queue_blocks fullE ⟨2, [[1], [2]], false⟩ [9]
    rfl rfl rfl (by decide)

/-- C4: in an iteration of the reconnector loop where a disconnect signal
is pending and the redial fails, the exporter is marked disconnected and,
unless the stop signal fires during the sleep, the loop sleeps exactly
`connReattemptPeriod + jitter` nanoseconds with the jitter draw in
[0, maxJitterNanos) — so the total sleep is below 1.7 × the period — where
the period is the 10-second default whenever the configured value is unset
or non-positive; if the stop signal fires during the sleep, the sleep is
abandoned and the loop returns instead. -/
theorem reconnect_failed_redial_sleep (e : Exporter) (err : GoErr)
    (inp : ReconnectInput)
    (hsel : inp.selectStop = false)
    (hbuf : e.disconnectedCh.buffer ≠ [])
    (hjit : inp.jitterDraw <
      maxJitterNanos (connReattemptPeriod e.c.reconnectionPeriod)) :
    ∃ e2,
      ((inp.stopDuringSleep = false →
        reconnectIteration e (some err) inp =
          .slept (connReattemptPeriod e.c.reconnectionPeriod + inp.jitterDraw) e2) ∧
       (inp.stopDuringSleep = true →
        reconnectIteration e (some err) inp = .exitedDuringSleep e2) ∧
       e2.lastConnectErr = some err) ∧
    (e.c.reconnectionPeriod ≤ 0 →
      connReattemptPeriod e.c.reconnectionPeriod = 10 * 1000000000) ∧
    connReattemptPeriod e.c.reconnectionPeriod + inp.jitterDraw <
      connReattemptPeriod e.c.reconnectionPeriod +
        maxJitterNanos (connReattemptPeriod e.c.reconnectionPeriod) := by
  obtain ⟨b, rest, hbr⟩ : ∃ b rest, e.disconnectedCh.buffer = b :: rest := by
    cases hb : e.disconnectedCh.buffer with
    | nil => exact absurd hb hbuf
    | cons b rest => exact ⟨b, rest, rfl⟩
  refine ⟨setStateDisconnected
      { e with disconnectedCh := { e.disconnectedCh with buffer := rest } } err,
    ⟨?_, ?_, ?_⟩, ?_, ?_⟩
  · intro hstop
    simp [reconnectIteration, hsel, hbr, hstop]
  · intro hstop
    simp [reconnectIteration, hsel, hbr, hstop]
  · simp [setStateDisconnected, saveLastConnectError]
  · intro hle
    simp [connReattemptPeriod, hle, defaultConnReattemptPeriod]
  · exact Nat.add_lt_add_left hjit _

/-- Witness for `reconnect_failed_redial_sleep`: with the period unset, an
iteration with a pending disconnect signal and a failed redial sleeps 10
seconds plus the concrete jitter draw of 3 nanoseconds. -/
theorem reconnect_failed_redial_sleep_witness :
    ∃ e2, reconnectIteration { runningE with disconnectedCh := ⟨1, [true]⟩ }
        (some .disconnected) ⟨false, 3, false⟩ =
      .slept (10 * 1000000000 + 3) e2 := by
  obtain ⟨e2, ⟨hs, _, _⟩, hdef, _⟩ :=
    reconnect_failed_redial_sleep { runningE with disconnectedCh := ⟨1, [true]⟩ }
      .disconnected ⟨false, 3, false⟩ rfl (by decide) (by decide)
  refine ⟨e2, ?_⟩
  have h10 := hdef (by decide)
  rw [h10] at hs
  exact hs rfl

/-- C5 counterexample: the first `Start` returns nil even though its
optimistic connect fails, but a second `Start` returns the sentinel
`errAlreadyStarted` — not the remembered outcome of the first call — so a
subsequent call does not return what the first call returned. -/
theorem start_second_call_not_remembered :
    (Start (NewUnstartedExporter sampleConfig) (some (.dial "refused"))).2 = none ∧
    (Start (Start (NewUnstartedExporter sampleConfig) (some (.dial "refused"))).1
        none).2 = some .alreadyStarted ∧
    (Start (Start (NewUnstartedExporter sampleConfig) (some (.dial "refused"))).1
        none).2 ≠
      (Start (NewUnstartedExporter sampleConfig) (some (.dial "refused"))).2 :=
  ⟨rfl, rfl, by decide⟩

/-- C5 as amended: `Start` is once-guarded. The first call performs the
initialization and returns nil even when the optimistic connect attempt
fails; every subsequent call is a no-op on the state and returns the
`already started` error (not the first call's outcome). -/
theorem start_once_guard (e : Exporter) (d d' : Option GoErr)
    (h : e.startOnceDone = false) :
    (Start e d).2 = none ∧
    (Start e d).1.startOnceDone = true ∧
    Start (Start e d).1 d' = ((Start e d).1, some .alreadyStarted) := by
  refine ⟨?_, ?_, ?_⟩
  · cases d <;> simp [Start, h]
  · cases d <;>
      simp [Start, h, setStateConnected, setStateDisconnected,
        saveLastConnectError]
  · have h1 : (Start e d).1.startOnceDone = true := by
      cases d <;>
        simp [Start, h, setStateConnected, setStateDisconnected,
          saveLastConnectError]
    generalize hE : (Start e d).1 = e1 at h1 ⊢
    simp [Start, h1]

/-- Witness for `start_once_guard` on a fresh exporter with a failing
first connect. -/
theorem start_once_guard_witness :
    (Start (NewUnstartedExporter sampleConfig) (some (.dial "refused"))).2 =
        none ∧
    Start (Start (NewUnstartedExporter sampleConfig)
          (some (.dial "refused"))).1 none =
      ((Start (NewUnstartedExporter sampleConfig) (some (.dial "refused"))).1,
        some .alreadyStarted) := by
  obtain ⟨h1, _, h3⟩ :=
    start_once_guard (NewUnstartedExporter sampleConfig)
      (some (.dial "refused")) none rfl
  exact ⟨h1, h3⟩

/-- C6: `Shutdown` on a not-started exporter is a no-op returning nil; on
a started exporter it closes the intake queue (so workers drain and exit),
closes the connection, clears the started flag, closes the stop channel,
and then returns the connection-close result if the reconnector's
confirmation arrives before the caller's context is done, and `ctx.Err()`
— deadline exceeded for an elapsed deadline — otherwise. -/
theorem shutdown_spec (e : Exporter) (env : ShutdownEnv) :
    (e.started = false → Shutdown e env = .ret e none) ∧
    (∀ ch, e.started = true → e.logsBatchCh = some ch →
      ∃ e', Shutdown e env =
          .ret e' (if env.doneBeforeDeadline then
                     (if e.grpcConnPresent then env.connCloseErr else none)
                   else some env.ctxErr) ∧
        e'.logsBatchCh = some { ch with closed := true } ∧
        e'.stopChClosed = true ∧ e'.started = false) := by
  constructor
  · intro h
    simp [Shutdown, h]
  · intro ch hs hch
    refine ⟨{ e with
        logsBatchCh := some { ch with closed := true },
        started := false, stopChClosed := true }, ?_, rfl, rfl, rfl⟩
    rcases env with ⟨cerr, done, cerr2⟩
    cases done <;> simp [Shutdown, hs, hch]

/-- Witness for `shutdown_spec`: shutting down `runningE` under a context
whose deadline elapses before the reconnector confirms returns the
deadline-exceeded error, with the intake queue closed. -/
theorem shutdown_spec_witness :
    ∃ e', Shutdown runningE ⟨none, false, .deadlineExceeded⟩ =
        .ret e' (some .deadlineExceeded) ∧
      e'.logsBatchCh = some ⟨2, [], true⟩ ∧
      e'.stopChClosed = true ∧ e'.started = false := by
  obtain ⟨e', h1, h2, h3, h4⟩ :=
    (shutdown_spec runningE ⟨none, false, .deadlineExceeded⟩).2
      ⟨2, [], false⟩ rfl rfl
  exact ⟨e', by simpa using h1, by simpa using h2, h3, h4⟩

/-- C7: a worker's delivery of a non-empty batch while the health state
reads disconnected fails immediately with the `disconnected` error, the
health state having been consulted but no RPC attempted and the state left
unchanged; and every batch a worker dequeues is returned to the batch pool
regardless of the delivery outcome. -/
theorem disconnected_batch_fails_fast (e : Exporter)
    (logs : List LogRecord) (env : DeliveryEnv) (err : GoErr)
    (hne : logs ≠ [])
    (hdisc : e.lastConnectErr = some err) :
    exportLogsInternal e logs env = ⟨some .disconnected, true, false, e⟩ ∧
    (∀ ch batch rest, e.logsBatchCh = some ch → ch.buffer = batch :: rest →
      ∃ label e', exportBatchesStep e env =
        .processed label batch.length true e') := by
  constructor
  · have hlen : ¬ logs.length = 0 := by
      simpa [List.length_eq_zero] using hne
    simp [exportLogsInternal, hlen, Exporter.connected, hdisc]
  · intro ch batch rest hch hbuf
    simp only [exportBatchesStep, hch, hbuf]
    exact ⟨_, _, rfl⟩

/-- Witness for `disconnected_batch_fails_fast`: a disconnected running
exporter with one pending batch fails it without an RPC and returns the
dequeued batch to the pool. -/
theorem disconnected_batch_fails_fast_witness :
    exportLogsInternal
        { runningE with lastConnectErr := some (.dial "refused") }
        [5] ⟨false, false, none⟩ =
      ⟨some .disconnected, true, false,
        { runningE with lastConnectErr := some (.dial "refused") }⟩ ∧
    ∃ label e', exportBatchesStep
        { runningE with
            lastConnectErr := some (.dial "refused"),
            logsBatchCh := some ⟨2, [[5]], false⟩ }
        ⟨false, false, none⟩ =
      .processed label 1 true e' := by
  constructor
  · exact (disconnected_batch_fails_fast
      { runningE with lastConnectErr := some (.dial "refused") }
      [5] ⟨false, false, none⟩ (.dial "refused") (by decide) rfl).1
  · exact (disconnected_batch_fails_fast
      { runningE with
          lastConnectErr := some (.dial "refused"),
          logsBatchCh := some ⟨2, [[5]], false⟩ }
      [5] ⟨false, false, none⟩ (.dial "refused") (by decide) rfl).2
      ⟨2, [[5]], false⟩ [5] [] rfl rfl

/-- C8: a delivery attempt on an empty batch returns nil immediately, for
every exporter state (disconnected ones included) and every scheduling
oracle, without reading the health state and without entering the RPC
path, leaving the state unchanged. -/
theorem empty_batch_immediate_success (e : Exporter) (env : DeliveryEnv) :
    exportLogsInternal e [] env = ⟨none, false, false, e⟩ := by
  simp [exportLogsInternal]

/-- C9: calling `ExportLogs` on a never-started exporter panics with a nil
pointer dereference — the uninitialized batch pool has no `New` function,
so `getBatchSlice` dereferences a nil slice pointer, and the deferred
recover guard re-raises the panic — and in particular the call never
returns, so it does not return the `not started` error. -/
theorem exportLogs_unstarted_panics (cfg : Config) (logs : List LogRecord) :
    ExportLogs (NewUnstartedExporter cfg) logs = .panicked nilDerefMsg ∧
    ∀ e' res, ExportLogs (NewUnstartedExporter cfg) logs ≠ .ret e' res := by
  have h : ExportLogs (NewUnstartedExporter cfg) logs = .panicked nilDerefMsg := by
    simp [ExportLogs, NewUnstartedExporter, exportLogsRecoverSwallows, nilDerefMsg]
  exact ⟨h, fun e' res hcon => by simp [h] at hcon⟩

/-- Witness for `exportLogs_unstarted_panics` at a concrete unstarted
exporter and batch. -/
theorem exportLogs_unstarted_panics_witness :
    ExportLogs (NewUnstartedExporter sampleConfig) [7] = .panicked nilDerefMsg :=
  (exportLogs_unstarted_panics sampleConfig [7]).1

/-- C10: `setStateDisconnected` never blocks: it records the connect error
and then performs a non-blocking send on `disconnectedCh`, appending a
signal when there is room and silently dropping the new signal when one is
already pending (buffer at capacity) — in both cases returning at once;
and the `disconnectedCh` installed by the first `Start` has capacity 1. -/
theorem setStateDisconnected_nonblocking (e : Exporter) (err : GoErr) :
    (setStateDisconnected e err).lastConnectErr = some err ∧
    (e.disconnectedCh.buffer.length < e.disconnectedCh.capacity →
      (setStateDisconnected e err).disconnectedCh =
        ⟨e.disconnectedCh.capacity, e.disconnectedCh.buffer ++ [true]⟩) ∧
    (e.disconnectedCh.capacity ≤ e.disconnectedCh.buffer.length →
      (setStateDisconnected e err).disconnectedCh = e.disconnectedCh) ∧
    (∀ d, e.startOnceDone = false →
      (Start e d).1.disconnectedCh.capacity = 1) := by
  refine ⟨rfl, ?_, ?_, ?_⟩
  · intro hroom
    simp [setStateDisconnected, saveLastConnectError, SignalChan.trySend, hroom]
  · intro hfull
    simp [setStateDisconnected, saveLastConnectError, SignalChan.trySend,
      Nat.not_lt.mpr hfull]
  · intro d h
    cases d <;>
      simp [Start, h, setStateConnected, setStateDisconnected,
        saveLastConnectError, SignalChan.trySend]

/-- Witness for `setStateDisconnected_nonblocking`: with a signal already
pending on the capacity-1 channel, recording a disconnection stores the
error and leaves the channel unchanged (the new signal is dropped). -/
theorem setStateDisconnected_nonblocking_witness :
    (setStateDisconnected { runningE with disconnectedCh := ⟨1, [true]⟩ }
        (.dial "refused")).lastConnectErr = some (.dial "refused") ∧
    (setStateDisconnected { runningE with disconnectedCh := ⟨1, [true]⟩ }
        (.dial "refused")).disconnectedCh = ⟨1, [true]⟩ := by
  obtain ⟨h1, _, h3, _⟩ :=
    setStateDisconnected_nonblocking
      { runningE with disconnectedCh := ⟨1, [true]⟩ } (.dial "refused")
  exact ⟨h1, h3 (by decide)⟩

end AsyncExporter
